import Mathlib

/-!
Verification development for the `lv_img_conv_api` image-conversion service.

The embedding models the two source files:

* `resize_image.py` — crop clamping and target-dimension resolution
  (the geometry core of `resize_image`, lines 60–124);
* `app.py` — the `/convert` request handler `convert_image`: request-shape
  dispatch, `maxSize` parsing, enum-option resolution, and the staging paths.

Machine integers are modelled by `Nat`/`Int`; Python's float division followed
by `int()` truncation is modelled by exact arithmetic (`Nat` division is the
floor of the exact quotient; `ℚ` is used where the code compares ratios).
Fallible paths return `Except`.
-/

namespace LvImgConvApi

/-- The `crop` argument of `resize_image`: pixel insets from each edge
(`crop.get('left', 0)` etc. in `resize_image.py`, lines 64–67). -/
structure CropSpec where
  left : Int
  top : Int
  right : Int
  bottom : Int
deriving DecidableEq

/-- The clamped crop box passed to `img.crop((left, top, right, bottom))`. -/
structure CropRect where
  left : Int
  top : Int
  right : Int
  bottom : Int
deriving DecidableEq

/-- Crop clamping from `resize_image.py` lines 68–74:
`right = orig_w - right_crop`, `bottom = orig_h - bottom_crop`, then
`left = max(0, min(left, orig_w))`, `top = max(0, min(top, orig_h))`,
`right = max(left, min(right, orig_w))`, `bottom = max(top, min(bottom, orig_h))`. -/
def clampCrop (origW origH : Nat) (c : CropSpec) : CropRect :=
  let left := max 0 (min c.left (origW : Int))
  let top := max 0 (min c.top (origH : Int))
  let right := max left (min ((origW : Int) - c.right) (origW : Int))
  let bottom := max top (min ((origH : Int) - c.bottom) (origH : Int))
  ⟨left, top, right, bottom⟩

/-- The `target_size` argument of `resize_image`: a single int or a
`(width, height)` tuple. -/
inductive TargetSize
  | single (d : Int)
  | pair (w h : Int)
deriving DecidableEq

/-- Target-dimension resolution from `resize_image.py` lines 94–120.
`int()` applied to a nonnegative exact quotient is `Nat` division
(floor).  The ratio comparison `width_ratio < height_ratio`
(`target_width / orig_width < target_height / orig_height`) is modelled as the
exact comparison in `ℚ`. -/
def resizeGeometry (origW origH : Nat) (ts : TargetSize) (keepAspectRatio : Bool) :
    Except String (Nat × Nat) :=
  match ts with
  | .single d =>
    if d ≤ 0 then .error "Target size must be positive"
    else
      let target_width := d.toNat
      .ok (target_width, (origH * target_width) / origW)
  | .pair w h =>
    if w ≤ 0 ∨ h ≤ 0 then .error "Width and height must be positive"
    else
      let wn := w.toNat
      let hn := h.toNat
      if keepAspectRatio then
        if (wn : ℚ) / (origW : ℚ) < (hn : ℚ) / (origH : ℚ) then
          .ok (wn, (origH * wn) / origW)
        else
          .ok ((origW * hn) / origH, hn)
      else
        .ok (wn, hn)

/-- The spec's description of single-dimension resolution, stated from the
spec's words for comparison with `resizeGeometry`:
"target height = round(workingHeight * d / workingWidth)", rounding to
nearest. -/
def specSingleHeight (workingW workingH d : Nat) : Int :=
  round ((workingH * d : ℚ) / (workingW : ℚ))

/-- Splitting a character list on a separator character, keeping empty
pieces, as Python's `str.split(sep)` does for a one-character separator. -/
def splitChar (sep : Char) : List Char → List (List Char)
  | [] => [[]]
  | c :: cs =>
    match splitChar sep cs with
    | [] => [[]]
    | p :: ps => if c = sep then [] :: p :: ps else (c :: p) :: ps

/-- Python `s.split(sep)` for a one-character separator. -/
def pySplit (sep : Char) (s : String) : List String :=
  (splitChar sep s.data).map String.mk

/-- Python `ch in s` for a one-character needle. -/
def pyContains (ch : Char) (s : String) : Bool := s.data.contains ch

/-- Python `s.lower()` on ASCII strings. -/
def pyLower (s : String) : String := String.mk (s.data.map Char.toLower)

/-- `ALLOWED_EXTENSIONS = {'jpg', 'jpeg', 'png'}` (`app.py`, line 24). -/
def ALLOWED_EXTENSIONS : List String := ["jpg", "jpeg", "png"]

/-- `allowed_file` from `app.py` lines 30–32:
`'.' in filename and filename.rsplit('.', 1)[1].lower() in ALLOWED_EXTENSIONS`.
`rsplit('.', 1)[1]` is the substring after the last dot, i.e. the last
component of splitting on every dot. -/
def allowed_file (filename : String) : Bool :=
  pyContains '.' filename &&
    ALLOWED_EXTENSIONS.contains (pyLower ((pySplit '.' filename).getLastD ""))

/-- The standard attribute names every Python `Enum` class exposes besides
its members: `getattr(enum_class, name)` returns a truthy non-member object
for these (the class docstring, the `mro` method, the `name`/`value`
descriptors, …) instead of raising `AttributeError`.  The real external
class may expose further attributes of its own (methods, properties);
those would likewise bypass the `if not …` checks, so theorems conclude
the 400 error only under the hypothesis that the value lies outside this
modelled attribute surface. -/
def enumClassAttrNames : List String :=
  ["__doc__", "__name__", "__qualname__", "__module__", "__members__",
   "mro", "name", "value"]

/-- `get_enum_value(enum_class, value_str)` from `app.py` lines 34–39:
`getattr` on an enum class yields the member named `value_str` when one
exists; for other attribute names present on the class (see
`enumClassAttrNames`) it yields that truthy non-member attribute, which the
caller's `if not …` check does not reject; only a name that is no attribute
at all raises `AttributeError`, answered with `None`.  Each enum class is
represented by the list of its member names. -/
def get_enum_value (memberNames : List String) (value_str : String) : Option String :=
  if memberNames.contains value_str then some value_str
  else if enumClassAttrNames.contains value_str then some value_str
  else none

/-- Modelled from the spec: the member names of the external LVGLImage
library's `ColorFormat` enum are not part of this repository; the spec names
`RGB565`, `RGB565A8` (the dithering-capable "RGB565 family") and `RGB888`
among the recognized color formats, and treats any other non-empty value
(such as "FOO") as unrecognized. -/
def colorFormatNames : List String := ["RGB565", "RGB565A8", "RGB888"]

/-- Modelled from the spec: the external `OutputFormat` enum's members; the
spec states that the only two recognized tokens (`bin`, `c_array`) "both map
onto defined enum members" `BIN_FILE` and `C_ARRAY`. -/
def outputFormatNames : List String := ["BIN_FILE", "C_ARRAY"]

/-- Modelled from the spec and the `/formats` documentation in `app.py`
(line 212): the external `CompressMethod` enum's members `NONE`, `RLE`,
`LZ4`. -/
def compressMethodNames : List String := ["NONE", "RLE", "LZ4"]

/-- `output_map = {'bin': 'BIN_FILE', 'c_array': 'C_ARRAY'}`
(`app.py`, lines 145–148). -/
def output_map (s : String) : Option String :=
  if s = "bin" then some "BIN_FILE"
  else if s = "c_array" then some "C_ARRAY"
  else none

/-- Output-format resolution from `app.py` lines 149–152:
`output_format_str = output_map.get(output_type, 'BIN_FILE')`, then
`get_enum_value(OutputFormat, output_format_str)`; `None` yields the
`Invalid output format` error. -/
def resolveOutput (output_type : String) : Except String String :=
  let output_format_str := (output_map output_type).getD "BIN_FILE"
  match get_enum_value outputFormatNames output_format_str with
  | none => .error ("Invalid output format: " ++ output_type)
  | some f => .ok f

/-- A JSON value as far as the `maxSize` handling inspects it: a string, a
number, or an object, of which only the `width`/`height` members matter
(`isinstance` checks in `app.py` lines 108 and 113). -/
inductive JsonVal
  | str (s : String)
  | num (n : Int)
  | obj (width height : Option Int)
deriving DecidableEq

/-- The numeric value of one decimal digit character, or `none`. -/
def digitVal (c : Char) : Option Nat :=
  if c.isDigit then some (c.toNat - 48) else none

/-- The value of a non-empty all-digit character list, or `none`. -/
def natOfDigits : List Char → Option Nat
  | [] => none
  | l => l.foldl (fun acc c =>
      match acc, digitVal c with
      | some a, some d => some (a * 10 + d)
      | _, _ => none) (some 0)

/-- Python `int(s)` on the decimal strings arising from splitting a
`maxSize` token: surrounding spaces are stripped, then an optional `+` or
`-` sign is followed by digits; anything else raises `ValueError`
(`none`).  Python's further tolerated forms (other whitespace kinds,
underscore digit grouping) are not modelled; no theorem depends on them. -/
def parseIntPy (s : String) : Option Int :=
  let t := ((s.data.dropWhile fun c => c = ' ').reverse.dropWhile fun c => c = ' ').reverse
  match t with
  | [] => none
  | '+' :: rest => (natOfDigits rest).map (fun n => (n : Int))
  | '-' :: rest => (natOfDigits rest).map (fun n => -(n : Int))
  | l => (natOfDigits l).map (fun n => (n : Int))

/-- `maxSize` parsing from `app.py` lines 106–116.  A string containing `x`
is split on `x` and unpacked as `width, height = map(int, ...)`; a parse
failure or a part count other than two raises `ValueError`, answered with
the 400 `Invalid maxSize format` error.  A dict with both `width` and
`height` members supplies the pair directly.  Every other shape leaves
`width`/`height` as `None`. -/
def parseMaxSize (v : JsonVal) : Except (Nat × String) (Option Int × Option Int) :=
  match v with
  | .str s =>
    if pyContains 'x' s then
      match (pySplit 'x' s).map parseIntPy with
      | [some w, some h] => .ok (some w, some h)
      | _ => .error (400, "Invalid maxSize format. Use \"widthxheight\", e.g. \"800x480\"")
    else .ok (none, none)
  | .obj (some w) (some h) => .ok (some w, some h)
  | _ => .ok (none, none)

/-- Python truthiness of the optional `width`/`height` values: `None` and
`0` are falsy. -/
def truthy : Option Int → Bool
  | none => false
  | some n => n != 0

/-- Which resize call `app.py` lines 119–134 make: no resize when both
values are falsy, `resize_image(..., target_size)` with
`target_size = width if width else height` when exactly one is truthy, and
`resize_image(..., (width, height))` when both are truthy. -/
inductive ResizeAction
  | noResize
  | single (d : Int)
  | pair (w h : Int)
deriving DecidableEq

/-- The dispatch on `width`/`height` from `app.py` lines 119–134. -/
def dispatchResize (width height : Option Int) : ResizeAction :=
  if !truthy width && !truthy height then .noResize
  else if !truthy width || !truthy height then
    .single ((if truthy width then width else height).getD 0)
  else .pair (width.getD 0) (height.getD 0)

/-- Externally visible side effects of the handler on the staging files:
saving the uploaded file, downloading the remote URL, and invoking
`resize_image`. -/
inductive Effect
  | saveUpload
  | downloadUrl
  | resizeCall
deriving DecidableEq

/-- The whole `maxSize` stage of `convert_image` (`app.py` lines 106–134):
parse, dispatch, and run the geometry of `resize_image`; a `ValueError`
raised inside `resize_image` is answered with a 500 `Error resizing image`
response.  Returns the effects performed and either an error response or
the dimensions of the image handed to the conversion step. -/
def handleMaxSize (origW origH : Nat) (v : Option JsonVal) :
    List Effect × Except (Nat × String) (Nat × Nat) :=
  match v with
  | none => ([], .ok (origW, origH))
  | some mv =>
    match parseMaxSize mv with
    | .error e => ([], .error e)
    | .ok (width, height) =>
      match dispatchResize width height with
      | .noResize => ([], .ok (origW, origH))
      | .single d =>
        match resizeGeometry origW origH (.single d) true with
        | .error e => ([.resizeCall], .error (500, "Error resizing image: " ++ e))
        | .ok wh => ([.resizeCall], .ok wh)
      | .pair w h =>
        match resizeGeometry origW origH (.pair w h) true with
        | .error e => ([.resizeCall], .error (500, "Error resizing image: " ++ e))
        | .ok wh => ([.resizeCall], .ok wh)

/-- The recognized JSON/form parameters of `/convert` (`app.py`:
`data.get('maxSize')`, `data.get('cf', 'RGB565')`, `data.get('output',
'bin')`, `data.get('dithering', False)`, `data.get('compression', 'NONE')`). -/
structure Params where
  maxSize : Option JsonVal
  cf : Option String
  output : Option String
  dithering : Bool
  compression : Option String
deriving DecidableEq

/-- One `/convert` request together with the outcomes of its I/O
interactions (upload present, URL validity, download success, declared
content type, params-JSON validity, the decoded image's dimensions, and
whether the external decode succeeds). -/
structure Env where
  uploadPresent : Bool
  uploadFilename : String
  isJson : Bool
  urlField : Option String
  urlHasSchemeAndHost : Bool
  downloadOk : Bool
  contentTypeIsImage : Bool
  paramsJsonValid : Bool
  params : Params
  origW : Nat
  origH : Nat
  decodeOk : Bool
deriving DecidableEq

/-- A `/convert` response: an `(status, message)` error or a successful
`(mime type, filename)` attachment. -/
abbrev Response := Except (Nat × String) (String × String)

/-- `convert_image` after the input bytes are staged (`app.py` lines
101–192): the `maxSize` stage, then color format, output format,
compression, the dithering coercion, and the conversion itself. -/
def afterFetch (env : Env) (effs0 : List Effect) : List Effect × Response :=
  match handleMaxSize env.origW env.origH env.params.maxSize with
  | (reffs, .error e) => (effs0 ++ reffs, .error e)
  | (reffs, .ok _) =>
    let effs := effs0 ++ reffs
    let color_format_str := env.params.cf.getD "RGB565"
    match get_enum_value colorFormatNames color_format_str with
    | none => (effs, .error (400, "Invalid color format: " ++ color_format_str))
    | some color_format =>
      let output_type := env.params.output.getD "bin"
      match resolveOutput output_type with
      | .error e => (effs, .error (400, e))
      | .ok output_format =>
        let compression_str := env.params.compression.getD "NONE"
        match get_enum_value compressMethodNames compression_str with
        | none => (effs, .error (400, "Invalid compression: " ++ compression_str))
        | some _compression =>
          let _dithering := env.params.dithering &&
            (color_format == "RGB565" || color_format == "RGB565A8")
          if env.decodeOk then
            if output_format == "BIN_FILE" then
              (effs, .ok ("application/octet-stream", "output.bin"))
            else
              (effs, .ok ("text/plain", "output.c"))
          else
            (effs, .error (500, "Error converting image"))

/-- The `/convert` handler `convert_image` (`app.py` lines 41–192): request
shape dispatch and input staging, then `afterFetch`.  In the upload branch
the file is saved before the `params` field is parsed; in the JSON branch
the URL is validated, then the download is issued, its status and declared
content type checked, and the body saved. -/
def convertModel (env : Env) : List Effect × Response :=
  if env.uploadPresent then
    if env.uploadFilename == "" || !allowed_file env.uploadFilename then
      ([], .error (400, "Invalid file type. Only JPG and PNG are supported."))
    else if !env.paramsJsonValid then
      ([.saveUpload], .error (400, "Invalid JSON in params field"))
    else
      afterFetch env [.saveUpload]
  else if env.isJson then
    match env.urlField with
    | none => ([], .error (400, "No URL provided in JSON"))
    | some _ =>
      if !env.urlHasSchemeAndHost then
        ([], .error (400, "Invalid URL provided"))
      else if !env.downloadOk then
        ([.downloadUrl], .error (400, "Error downloading image"))
      else if !env.contentTypeIsImage then
        ([.downloadUrl], .error (400, "URL does not point to a JPG or PNG image"))
      else
        afterFetch env [.downloadUrl]
  else
    ([], .error (400, "No image file or URL provided"))

/-- `TEMP_DIR = os.path.join(tempfile.gettempdir(), 'lvgl_converter')`
(`app.py` line 27), as a function of the system temp root. -/
def TEMP_DIR (tmpRoot : String) : String := tmpRoot ++ "/lvgl_converter"

/-- The staging paths computed at the top of `convert_image` (`app.py`
lines 44–47), viewed as a function of the request being handled: the code
derives them from `TEMP_DIR` alone, so the request argument is unused. -/
def stagingPaths (tmpRoot : String) (_req : Env) : String × String × String :=
  (TEMP_DIR tmpRoot ++ "/input.png",
   TEMP_DIR tmpRoot ++ "/resized.png",
   TEMP_DIR tmpRoot ++ "/output.bin")

/-- `MAX_CONTENT_LENGTH = 16 * 1024 * 1024` (`app.py` line 23): the 16 MiB
ceiling Flask enforces on inbound request bodies. -/
def MAX_CONTENT_LENGTH : Nat := 16 * 1024 * 1024

/-- The download-saving loop of `app.py` lines 93–95:
`for chunk in response.iter_content(chunk_size=8192): f.write(chunk)` —
every chunk of the remote body is appended to the staged file.  Bytes are
modelled as `Nat`. -/
def writeChunks : List (List Nat) → List Nat
  | [] => []
  | c :: cs => c ++ writeChunks cs

/-- For positive inputs, the `keepAspectRatio` branch of the geometry
compares the two exact ratios; this is equivalent to the cross-multiplied
comparison of naturals. -/
lemma resizeGeometry_pair_pos (origW origH : Nat) (w h : Int)
    (hW : 0 < origW) (hH : 0 < origH) (hw : 0 < w) (hh : 0 < h) :
    resizeGeometry origW origH (.pair w h) true =
      if w.toNat * origH < h.toNat * origW then
        Except.ok (w.toNat, (origH * w.toNat) / origW)
      else Except.ok ((origW * h.toNat) / origH, h.toNat) := by
  have hW' : (0 : ℚ) < (origW : ℚ) := by exact_mod_cast hW
  have hH' : (0 : ℚ) < (origH : ℚ) := by exact_mod_cast hH
  simp only [resizeGeometry]
  rw [if_neg (by omega : ¬ (w ≤ 0 ∨ h ≤ 0))]
  simp only [if_true]
  by_cases hc : w.toNat * origH < h.toNat * origW
  · rw [if_pos ((div_lt_div_iff₀ hW' hH').mpr (by exact_mod_cast hc)), if_pos hc]
  · rw [if_neg (fun hlt => hc (by exact_mod_cast (div_lt_div_iff₀ hW' hH').mp hlt)),
        if_neg hc]

/-- Claim C6 (amended part): for every original size and every crop spec,
the clamped crop rectangle of `resize_image` satisfies
`0 ≤ left ≤ right ≤ originalW` and `0 ≤ top ≤ bottom ≤ originalH`; clamping,
not rejection, handles all overruns.  (The further part of the claim — that
the rectangle is never empty — is refuted by `C6_crop_can_be_empty`.) -/
theorem C6_crop_clamped_in_bounds (origW origH : Nat) (c : CropSpec) :
    0 ≤ (clampCrop origW origH c).left ∧
    (clampCrop origW origH c).left ≤ (clampCrop origW origH c).right ∧
    (clampCrop origW origH c).right ≤ (origW : Int) ∧
    0 ≤ (clampCrop origW origH c).top ∧
    (clampCrop origW origH c).top ≤ (clampCrop origW origH c).bottom ∧
    (clampCrop origW origH c).bottom ≤ (origH : Int) := by
  simp only [clampCrop]
  omega

/-- Claim C6, counterexample to the claim as stated: on a 10×10 image, the
crop spec with `left = 10` (and no other insets) clamps to the rectangle
`(10, 0, 10, 10)`, whose width `right - left` is zero — the clamped crop
rectangle can be empty. -/
theorem C6_crop_can_be_empty :
    (clampCrop 10 10 ⟨10, 0, 0, 0⟩).right - (clampCrop 10 10 ⟨10, 0, 0, 0⟩).left = 0 := by
  decide

/-- Claim C7 (amended): for every positive working size and every positive
single-dimension target `d`, the resolver treats `d` as the target width
and computes the target height by truncating `workingH * d / workingW`
(the floor of the exact quotient, as `int()` does on a nonnegative float),
not by rounding to nearest; this holds regardless of `keepAspectRatio`. -/
theorem C7_single_dim_truncates (origW origH : Nat) (d : Int) (keep : Bool)
    (hW : 0 < origW) (hd : 0 < d) :
    resizeGeometry origW origH (.single d) keep =
      Except.ok (d.toNat, (origH * d.toNat) / origW) ∧
    (origH * d.toNat) / origW = ⌊((origH * d.toNat : Nat) : ℚ) / ((origW : Nat) : ℚ)⌋₊ := by
  constructor
  · simp [resizeGeometry, not_le.mpr hd]
  · exact (Nat.floor_div_eq_div (α := ℚ) (origH * d.toNat) origW).symm

/-- Claim C7, witness for `C7_single_dim_truncates` at working size 4×3 and
`d = 2`. -/
theorem C7_single_dim_truncates_witness :
    resizeGeometry 4 3 (TargetSize.single 2) true = Except.ok (2, 1) ∧
    (1 : Nat) = ⌊((6 : Nat) : ℚ) / ((4 : Nat) : ℚ)⌋₊ :=
  C7_single_dim_truncates 4 3 2 true (by norm_num) (by norm_num)

/-- Claim C7, counterexample to the claim as stated: at working size 4×3
with `d = 2` the code computes height `int(3 * 2 / 4) = 1`, while the
spec's `round(workingH * d / workingW)` is `round(1.5) = 2`. -/
theorem C7_cex :
    resizeGeometry 4 3 (TargetSize.single 2) true = Except.ok (2, 1) ∧
    specSingleHeight 4 3 2 = 2 ∧ (1 : Int) ≠ 2 := by
  refine ⟨rfl, ?_, by decide⟩
  norm_num [specSingleHeight, round_eq]

/-- Claim C8 (amended): the download loop writes every chunk of the remote
body to the staged file — the stored size always equals the full body
size; no size ceiling is checked mid-stream. -/
theorem C8_download_unbounded (chunks : List (List Nat)) :
    (writeChunks chunks).length = (chunks.map List.length).sum := by
  induction chunks with
  | nil => rfl
  | cons c cs ih => simp [writeChunks, ih]

/-- Claim C8, counterexample to the claim as stated: a remote body one byte
larger than the 16 MiB ceiling is stored in full, so the handler does store
a remote body larger than the ceiling. -/
theorem C8_cex :
    (writeChunks [List.replicate (MAX_CONTENT_LENGTH + 1) 0]).length =
      MAX_CONTENT_LENGTH + 1 ∧
    MAX_CONTENT_LENGTH < MAX_CONTENT_LENGTH + 1 := by
  constructor
  · simp [writeChunks]
  · exact Nat.lt_succ_self _

/-- Claim C9 (code bug): the staging paths `convert_image` uses are
computed from `TEMP_DIR` alone and are therefore identical for every pair
of requests — there is no per-request identity, contrary to the spec's
requirement that staging storage be allocated per-request. -/
theorem C9_staging_paths_shared (tmpRoot : String) (r1 r2 : Env) :
    stagingPaths tmpRoot r1 = stagingPaths tmpRoot r2 := rfl

/-- Claim C3 (confirmed): for positive original dimensions and a positive
target pair with `keepAspectRatio = true`, the resolved dimensions fit
within the target box and at least one bound is met exactly. -/
theorem C3_fit_within (origW origH : Nat) (w h : Int) (rW rH : Nat)
    (hW : 0 < origW) (hH : 0 < origH) (hw : 0 < w) (hh : 0 < h)
    (hres : resizeGeometry origW origH (.pair w h) true = Except.ok (rW, rH)) :
    rW ≤ w.toNat ∧ rH ≤ h.toNat ∧ (rW = w.toNat ∨ rH = h.toNat) := by
  rw [resizeGeometry_pair_pos origW origH w h hW hH hw hh] at hres
  by_cases hc : w.toNat * origH < h.toNat * origW
  · rw [if_pos hc] at hres
    simp only [Except.ok.injEq, Prod.mk.injEq] at hres
    obtain ⟨h1, h2⟩ := hres
    subst h1; subst h2
    refine ⟨le_refl _, ?_, Or.inl rfl⟩
    have hlt : origH * w.toNat < (h.toNat + 1) * origW :=
      calc origH * w.toNat = w.toNat * origH := Nat.mul_comm _ _
        _ < h.toNat * origW := hc
        _ ≤ (h.toNat + 1) * origW := Nat.mul_le_mul_right _ (Nat.le_succ _)
    exact Nat.le_of_lt_succ ((Nat.div_lt_iff_lt_mul hW).mpr hlt)
  · rw [if_neg hc] at hres
    simp only [Except.ok.injEq, Prod.mk.injEq] at hres
    obtain ⟨h1, h2⟩ := hres
    subst h1; subst h2
    refine ⟨?_, le_refl _, Or.inr rfl⟩
    have hle : h.toNat * origW ≤ w.toNat * origH := Nat.not_lt.mp hc
    have hlt : origW * h.toNat < (w.toNat + 1) * origH :=
      calc origW * h.toNat = h.toNat * origW := Nat.mul_comm _ _
        _ ≤ w.toNat * origH := hle
        _ < (w.toNat + 1) * origH := (Nat.mul_lt_mul_right hH).mpr (Nat.lt_succ_self _)
    exact Nat.le_of_lt_succ ((Nat.div_lt_iff_lt_mul hH).mpr hlt)

/-- Claim C3, witness for `C3_fit_within`: original 1600×1200, target
800×480 resolves to 640×480 — both bounds respected, height met exactly. -/
theorem C3_fit_within_witness : 640 ≤ 800 ∧ 480 ≤ 480 ∧ (640 = 800 ∨ 480 = 480) :=
  C3_fit_within 1600 1200 800 480 640 480 (by norm_num) (by norm_num) (by norm_num)
    (by norm_num)
    (by rw [resizeGeometry_pair_pos 1600 1200 800 480 (by norm_num) (by norm_num)
          (by norm_num) (by norm_num)]
        rfl)

/-- Claim C4, counterexample to the claim as stated: with a 1000×1 original
and `maxSize = "500x0"`, the resolved height after truncation is `0`, yet no
validation error is raised — the request reaches the resize step with a
non-positive resolved axis (`Except.ok (500, 0)`).  And with
`maxSize = "-5x480"`, the input-validation `ValueError` raised inside
`resize_image` is reported by the handler as a 500-level processing error,
not a 400-level validation error. -/
theorem C4_cex :
    handleMaxSize 1000 1 (some (JsonVal.str "500x0")) =
      ([Effect.resizeCall], Except.ok (500, 0)) ∧
    handleMaxSize 100 100 (some (JsonVal.str "-5x480")) =
      ([Effect.resizeCall],
        Except.error (500, "Error resizing image: Width and height must be positive")) :=
  ⟨rfl, rfl⟩

/-- Claim C4 (amended): the only positivity validation in the resize path
is on the input target values — a non-positive input value raises
`ValueError` before any pixel work; the resolved dimensions after rounding
are not themselves checked (see `C4_cex`). -/
theorem C4_input_validation_only (origW origH : Nat) (keep : Bool) (d w h : Int) :
    (d ≤ 0 → resizeGeometry origW origH (.single d) keep =
      Except.error "Target size must be positive") ∧
    (w ≤ 0 ∨ h ≤ 0 → resizeGeometry origW origH (.pair w h) keep =
      Except.error "Width and height must be positive") := by
  constructor
  · intro hd
    simp only [resizeGeometry]
    rw [if_pos hd]
  · intro hwh
    simp only [resizeGeometry]
    rw [if_pos hwh]

/-- Claim C4, witness for `C4_input_validation_only` at `d = -1` and
`(w, h) = (-5, 480)`. -/
theorem C4_input_validation_only_witness :
    resizeGeometry 10 10 (TargetSize.single (-1)) true =
      Except.error "Target size must be positive" ∧
    resizeGeometry 10 10 (TargetSize.pair (-5) 480) true =
      Except.error "Width and height must be positive" :=
  ⟨(C4_input_validation_only 10 10 true (-1) (-5) 480).1 (by norm_num),
   (C4_input_validation_only 10 10 true (-1) (-5) 480).2 (Or.inl (by norm_num))⟩

/-- Claim C10 (confirmed): a `maxSize` pair with exactly one zero value is
not rejected; the handler performs a single-dimension resize with the
nonzero value as the target width — also when that value came from the
height position — and the string forms `"800x0"` / `"0x480"` parse to such
pairs. -/
theorem C10_one_zero_single_dim (origW origH : Nat) (d : Int)
    (hW : 0 < origW) (hd : 0 < d) :
    handleMaxSize origW origH (some (JsonVal.obj (some d) (some 0))) =
      ([Effect.resizeCall], Except.ok (d.toNat, (origH * d.toNat) / origW)) ∧
    handleMaxSize origW origH (some (JsonVal.obj (some 0) (some d))) =
      ([Effect.resizeCall], Except.ok (d.toNat, (origH * d.toNat) / origW)) ∧
    parseMaxSize (JsonVal.str "800x0") = Except.ok (some 800, some 0) ∧
    parseMaxSize (JsonVal.str "0x480") = Except.ok (some 0, some 480) := by
  have hne : d ≠ 0 := by omega
  have hdisp1 : dispatchResize (some d) (some 0) = ResizeAction.single d := by
    simp [dispatchResize, truthy, hne]
  have hdisp2 : dispatchResize (some 0) (some d) = ResizeAction.single d := by
    simp [dispatchResize, truthy, hne]
  have hgeo : resizeGeometry origW origH (.single d) true =
      Except.ok (d.toNat, (origH * d.toNat) / origW) := by
    simp only [resizeGeometry]
    rw [if_neg (not_le.mpr hd)]
  exact ⟨by simp only [handleMaxSize, parseMaxSize, hdisp1, hgeo],
         by simp only [handleMaxSize, parseMaxSize, hdisp2, hgeo],
         rfl, rfl⟩

/-- Claim C10, witness for `C10_one_zero_single_dim`: original 800×600 and
zero-containing pairs with nonzero value 480 resolve to a 480×360
single-dimension resize. -/
theorem C10_one_zero_single_dim_witness :
    handleMaxSize 800 600 (some (JsonVal.obj (some 480) (some 0))) =
      ([Effect.resizeCall], Except.ok (480, 360)) ∧
    handleMaxSize 800 600 (some (JsonVal.obj (some 0) (some 480))) =
      ([Effect.resizeCall], Except.ok (480, 360)) ∧
    parseMaxSize (JsonVal.str "800x0") = Except.ok (some 800, some 0) ∧
    parseMaxSize (JsonVal.str "0x480") = Except.ok (some 0, some 480) :=
  C10_one_zero_single_dim 800 600 480 (by norm_num) (by norm_num)

/-- Claim C5, counterexample to the claim as stated: a request whose
`maxSize` is the number `42` — neither a `"WIDTHxHEIGHT"` string nor a
`{width, height}` object — is not answered with a validation error; the
request silently succeeds with no resize performed. -/
theorem C5_cex :
    convertModel
      { uploadPresent := true, uploadFilename := "a.png", isJson := false,
        urlField := none, urlHasSchemeAndHost := false, downloadOk := false,
        contentTypeIsImage := false, paramsJsonValid := true,
        params := { maxSize := some (JsonVal.num 42), cf := none, output := none,
                    dithering := false, compression := none },
        origW := 100, origH := 100, decodeOk := true } =
      ([Effect.saveUpload], Except.ok ("application/octet-stream", "output.bin")) := rfl

/-- Claim C5 (amended): a present `maxSize` that is neither an
`x`-containing string nor an object with both `width` and `height` members
falls through silently — no resize is performed and no error is returned
(numbers, objects with a missing member, and strings without `x` all pass
through); only an `x`-containing string whose parts do not parse as
integers yields the 400 validation error. -/
theorem C5_silent_fallthrough (origW origH : Nat) (n : Int) (wOpt : Option Int) :
    handleMaxSize origW origH (some (JsonVal.num n)) = ([], Except.ok (origW, origH)) ∧
    handleMaxSize origW origH (some (JsonVal.obj wOpt none)) =
      ([], Except.ok (origW, origH)) ∧
    handleMaxSize origW origH (some (JsonVal.obj none wOpt)) =
      ([], Except.ok (origW, origH)) ∧
    handleMaxSize origW origH (some (JsonVal.str "800")) =
      ([], Except.ok (origW, origH)) ∧
    parseMaxSize (JsonVal.str "axb") =
      Except.error (400, "Invalid maxSize format. Use \"widthxheight\", e.g. \"800x480\"") := by
  refine ⟨rfl, ?_, ?_, rfl, rfl⟩ <;> cases wOpt <;> rfl

/-- Claim C1, counterexample to the claim as stated: a request whose
`output` field holds the unrecognized value `"xyz"` is not answered with a
validation error; it succeeds and is served as the default `bin` output. -/
theorem C1_cex :
    convertModel
      { uploadPresent := true, uploadFilename := "a.png", isJson := false,
        urlField := none, urlHasSchemeAndHost := false, downloadOk := false,
        contentTypeIsImage := false, paramsJsonValid := true,
        params := { maxSize := none, cf := none, output := some "xyz",
                    dithering := false, compression := none },
        origW := 100, origH := 100, decodeOk := true } =
      ([Effect.saveUpload], Except.ok ("application/octet-stream", "output.bin")) := rfl

/-- Claim C1 (amended): every `output` value other than `c_array` — in
particular every unrecognized value — is silently mapped to the default
`BIN_FILE` output; the invalid-output error branch is unreachable. -/
theorem C1_output_silent_default (s : String) (hs : s ≠ "c_array") :
    resolveOutput s = Except.ok "BIN_FILE" := by
  by_cases hb : s = "bin"
  · subst hb; rfl
  · have hmap : output_map s = none := by simp [output_map, hb, hs]
    simp only [resolveOutput, hmap, Option.getD_none]
    rfl

/-- Claim C1, witness for `C1_output_silent_default` at the unrecognized
value `"xyz"`. -/
theorem C1_output_silent_default_witness : resolveOutput "xyz" = Except.ok "BIN_FILE" :=
  C1_output_silent_default "xyz" (by decide)

/-- Evaluation of the `maxSize` stage at original size 1600×1200 with
`"800x480"`: `resize_image` is called and resolves to 640×480. -/
lemma handleMaxSize_800x480 :
    handleMaxSize 1600 1200 (some (JsonVal.str "800x480")) =
      ([Effect.resizeCall], Except.ok (640, 480)) := by
  have hgeo : resizeGeometry 1600 1200 (TargetSize.pair 800 480) true =
      Except.ok (640, 480) := by
    rw [resizeGeometry_pair_pos 1600 1200 800 480 (by norm_num) (by norm_num)
      (by norm_num) (by norm_num)]
    rfl
  show (match resizeGeometry 1600 1200 (TargetSize.pair 800 480) true with
        | .error e => ([Effect.resizeCall], Except.error (500, "Error resizing image: " ++ e))
        | .ok wh => ([Effect.resizeCall], Except.ok wh)) =
      ([Effect.resizeCall], Except.ok (640, 480))
  rw [hgeo]

/-- Claim C2, counterexample to the claim as stated: on an upload request
with `maxSize = "800x480"` and the unrecognized `cf = "FOO"`, the handler
does return the 400 invalid-color-format error, but only after saving the
upload and performing the resize — the fetch and the resize work are not
skipped. -/
theorem C2_cex :
    convertModel
      { uploadPresent := true, uploadFilename := "a.png", isJson := false,
        urlField := none, urlHasSchemeAndHost := false, downloadOk := false,
        contentTypeIsImage := false, paramsJsonValid := true,
        params := { maxSize := some (JsonVal.str "800x480"), cf := some "FOO",
                    output := none, dithering := false, compression := none },
        origW := 1600, origH := 1200, decodeOk := true } =
      ([Effect.saveUpload, Effect.resizeCall],
        Except.error (400, "Invalid color format: FOO")) := by
  show afterFetch _ [Effect.saveUpload] = _
  unfold afterFetch
  rw [handleMaxSize_800x480]
  rfl

/-- Claim C2 (amended): on every `/convert` request that reaches the `cf`
check — whether it staged its bytes by saving an upload or by downloading
a URL — a `cf` value that names neither a color format nor any attribute
of the enum class yields the 400 `Invalid color format` error naming it,
but the fetch (upload save or URL download) and any requested resize have
already been performed when the error is returned; the fetch and transform
are not skipped. -/
theorem C2_error_after_fetch (env : Env) (c u : String) (reffs : List Effect)
    (dims : Nat × Nat)
    (hcf : env.params.cf = some c)
    (hinv : get_enum_value colorFormatNames c = none)
    (hmax : handleMaxSize env.origW env.origH env.params.maxSize =
      (reffs, Except.ok dims))
    (hshape :
      (env.uploadPresent = true ∧ (env.uploadFilename == "") = false ∧
        allowed_file env.uploadFilename = true ∧ env.paramsJsonValid = true) ∨
      (env.uploadPresent = false ∧ env.isJson = true ∧ env.urlField = some u ∧
        env.urlHasSchemeAndHost = true ∧ env.downloadOk = true ∧
        env.contentTypeIsImage = true)) :
    convertModel env =
      ((if env.uploadPresent then Effect.saveUpload else Effect.downloadUrl) :: reffs,
        Except.error (400, "Invalid color format: " ++ c)) := by
  have hAfter : ∀ e0 : Effect, afterFetch env [e0] =
      (e0 :: reffs, Except.error (400, "Invalid color format: " ++ c)) := by
    intro e0
    unfold afterFetch
    rw [hmax]
    simp only [hcf, Option.getD_some, hinv, List.singleton_append]
  rcases hshape with ⟨h1, h2, h3, h4⟩ | ⟨h1, hj, hu, hv, hd, hct⟩
  · have hif : (if env.uploadPresent then Effect.saveUpload else Effect.downloadUrl) =
        Effect.saveUpload := by simp [h1]
    rw [hif]
    unfold convertModel
    rw [h1]
    simp only [h2, h3, h4, Bool.not_true, Bool.or_false, Bool.false_or, if_true, if_false,
      Bool.false_eq_true, ite_false, ite_true]
    exact hAfter Effect.saveUpload
  · have hif : (if env.uploadPresent then Effect.saveUpload else Effect.downloadUrl) =
        Effect.downloadUrl := by simp [h1]
    rw [hif]
    unfold convertModel
    rw [h1, hj, hu]
    simp only [hv, hd, hct, Bool.not_true, Bool.not_false, Bool.false_eq_true, if_true,
      if_false, ite_false, ite_true]
    exact hAfter Effect.downloadUrl

/-- Claim C2, witness for `C2_error_after_fetch` on both request branches:
the upload request of `C2_cex`, and the corresponding JSON/URL request
(valid URL, successful download with an image content type), each with
`maxSize = "800x480"` and `cf = "FOO"`. -/
theorem C2_error_after_fetch_witness :
    convertModel
      { uploadPresent := true, uploadFilename := "a.png", isJson := false,
        urlField := none, urlHasSchemeAndHost := false, downloadOk := false,
        contentTypeIsImage := false, paramsJsonValid := true,
        params := { maxSize := some (JsonVal.str "800x480"), cf := some "FOO",
                    output := none, dithering := false, compression := none },
        origW := 1600, origH := 1200, decodeOk := true } =
      (Effect.saveUpload :: [Effect.resizeCall],
        Except.error (400, "Invalid color format: " ++ "FOO")) ∧
    convertModel
      { uploadPresent := false, uploadFilename := "", isJson := true,
        urlField := some "https://example.com/image.png", urlHasSchemeAndHost := true,
        downloadOk := true, contentTypeIsImage := true, paramsJsonValid := true,
        params := { maxSize := some (JsonVal.str "800x480"), cf := some "FOO",
                    output := none, dithering := false, compression := none },
        origW := 1600, origH := 1200, decodeOk := true } =
      (Effect.downloadUrl :: [Effect.resizeCall],
        Except.error (400, "Invalid color format: " ++ "FOO")) :=
  ⟨C2_error_after_fetch _ "FOO" "" [Effect.resizeCall] (640, 480)
      rfl rfl handleMaxSize_800x480 (Or.inl ⟨rfl, rfl, rfl, rfl⟩),
   C2_error_after_fetch _ "FOO" "https://example.com/image.png" [Effect.resizeCall]
      (640, 480) rfl rfl handleMaxSize_800x480 (Or.inr ⟨rfl, rfl, rfl, rfl, rfl, rfl⟩)⟩

end LvImgConvApi
